import Mathlib

/-
Verification of the front-end build tools pipeline (src/index.js).

The five exported pipeline stages are modelled as trace semantics: every
stage becomes a Lean function from a configuration record plus an
environment record (the outcomes that the wrapped external collaborators
and the file system would produce on this call) to the ordered list of
observable events of one execution.  Promise settlement is itself an
event; JavaScript promises keep only the first settlement, so the
outcome of a call is the first settlement event of its trace.

Payload data produced by the external collaborators (rendered markup,
compiled CSS text, minified code) is opaque to this repository, so the
write events record only the destination path; the environment records
say whether each collaborator call or file operation succeeds or fails.
Console logging has no observable effect on the contract and is omitted.
-/

/-- JavaScript runtime values, as far as the option flags of this
repository need them: the code tests flags with strict equality
(minify === true, sassSourceMap === true). -/
inductive JSValue where
  | undef
  | null
  | bool (b : Bool)
  | num (n : Int)
  | str (s : String)
deriving DecidableEq, Repr

/-- Errors: errors constructed by this repository carry their message
(JsError.mk msg); errors coming from collaborators or from the file
system are opaque values (JsError.external i). -/
inductive JsError where
  | mk (msg : String)
  | external (i : Nat)
deriving DecidableEq, Repr

deriving instance DecidableEq for Except

/-- One observable event of a stage execution, in program order.
readFile takes an Option String because uglify and beautifyHtml reach
fs.readFile even when the input path is undefined (src/index.js lines
151 and 165 run after a reject without returning). -/
inductive Event where
  | addGlobal (name val : String)
  | renderCall (tmpl : String)
  | sassCompile (src : String)
  | readFile (p : Option String)
  | writeStart (p : String)
  | writeDone (p : String)
  | writeSync (p : String)
  | purgeStart
  | purgeDone
  | prefixStart (file : String)
  | prefixDone (file : String)
  | minifyCall (name : String) (data : Option String)
  | transformCall (p : String) (presets : List String)
  | settleResolve
  | settleReject (e : JsError)
deriving DecidableEq, Repr

def Event.isSettle : Event → Bool
  | .settleResolve => true
  | .settleReject _ => true
  | _ => false

def Event.isFileOp : Event → Bool
  | .readFile _ => true
  | .writeStart _ => true
  | .writeDone _ => true
  | .writeSync _ => true
  | _ => false

def Event.isWrite : Event → Bool
  | .writeStart _ => true
  | .writeDone _ => true
  | .writeSync _ => true
  | _ => false

def Event.isWriteSync : Event → Bool
  | .writeSync _ => true
  | _ => false

def Event.isPurgeStart : Event → Bool
  | .purgeStart => true
  | _ => false

/-- Settlement state of the promise returned by a stage: a JavaScript
promise keeps the first settlement of its trace and ignores later ones;
a trace with no settlement event is a promise that never settles. -/
inductive Outcome where
  | resolved
  | rejected (e : JsError)
  | pending
deriving DecidableEq, Repr

def outcome (tr : List Event) : Outcome :=
  match tr.find? Event.isSettle with
  | some Event.settleResolve => Outcome.resolved
  | some (Event.settleReject e) => Outcome.rejected e
  | _ => Outcome.pending

/-- Events that happen before the promise settles. -/
def beforeFirstSettle (tr : List Event) : List Event :=
  tr.takeWhile (fun ev => !ev.isSettle)

/-- The first settlement event and everything after it. -/
def afterFirstSettle (tr : List Event) : List Event :=
  tr.dropWhile (fun ev => !ev.isSettle)

/-- No file read or write occurs before the promise settles. -/
def noFileOpBeforeSettle (tr : List Event) : Bool :=
  (beforeFirstSettle tr).all (fun ev => !ev.isFileOp)

/-- Events before the unused-rule purge is started. -/
def beforePurge (tr : List Event) : List Event :=
  tr.takeWhile (fun ev => !ev.isPurgeStart)

/-- JavaScript falsiness of a possibly-absent string option: an absent
field destructures to undefined, which is falsy, as is the empty
string; every other string is truthy. -/
def strFalsy : Option String → Bool
  | none => true
  | some s => s == ""

/-- Destructuring default for a flag parameter: the default applies when
the property is absent or undefined (src/index.js lines 48 and 111). -/
def jsDefault (d : JSValue) : Option JSValue → JSValue
  | none => d
  | some JSValue.undef => d
  | some v => v

/-- Model of path.basename for the POSIX paths this code handles. -/
def basename (s : String) : String :=
  (s.splitOn "/").getLastD s

/-- Configuration of compileNunjucks (src/index.js line 22): inputPath,
outputPath, templates are required; globalVars defaults to the empty
object, modelled as an association list. The data context is forwarded
to the render collaborator and has no further observable role here. -/
structure NunjucksConfig where
  inputPath : Option String
  outputPath : Option String
  templates : Option (List String)
  globalVars : List (String × String)
deriving DecidableEq, Repr

/-- Collaborator behaviour for one compileNunjucks call: what
nunjucks.render reports, and whether the fs.writeFile of the rendered
output fails. -/
structure NunjucksEnv where
  renderRes : Except JsError String
  writeErr : Option JsError
deriving DecidableEq, Repr

/-- Trace of compileNunjucks (src/index.js lines 22-46). Validation
throws inside the Promise executor, which rejects the returned promise
before any other work. On render error the callback rejects and the
write branch is never taken; on render success the rendered text is
pretty-printed and written, and the write callback rejects or resolves. -/
def compileNunjucks (cfg : NunjucksConfig) (env : NunjucksEnv) : List Event :=
  if strFalsy cfg.inputPath then
    [Event.settleReject (JsError.mk "No inputPath provided to compileNunjucks")]
  else if strFalsy cfg.outputPath then
    [Event.settleReject (JsError.mk "No outputPath provided to compileNunjucks")]
  else if cfg.templates.isNone then
    [Event.settleReject (JsError.mk "No templates provided to compileNunjucks")]
  else
    cfg.globalVars.map (fun g => Event.addGlobal g.1 g.2) ++
    [Event.renderCall (cfg.inputPath.getD "")] ++
    match env.renderRes with
    | Except.error e => [Event.settleReject e]
    | Except.ok _ =>
      [Event.writeStart (cfg.outputPath.getD ""),
       Event.writeDone (cfg.outputPath.getD "")] ++
      match env.writeErr with
      | some e => [Event.settleReject e]
      | none => [Event.settleResolve]

/-- One entry of the list returned by the unused-rule purger: the file
the result belongs to and its purged CSS text. -/
structure PurgeResult where
  file : String
  css : String
deriving DecidableEq, Repr

/-- Result of sass.renderSync: compiled CSS and its source map. -/
structure SassOut where
  css : String
  map : String
deriving DecidableEq, Repr

/-- Configuration of compileSassAndPurgeCss (src/index.js line 48).
srcSassPath and destCssPath are required; sassSourceMap and
purgeCssSourceMap default to true; purgeCssContent and cssFilesToPurge
are forwarded to the purge collaborator. -/
structure SassConfig where
  srcSassPath : Option String
  destCssPath : Option String
  sassSourceMap : Option JSValue
  purgeCssContent : Option (List String)
  cssFilesToPurge : Option (List String)
  purgeCssSourceMap : Option JSValue
deriving DecidableEq, Repr

/-- Collaborator behaviour for one compileSassAndPurgeCss call. -/
structure SassEnv where
  renderSyncRes : Except JsError SassOut
  cssWriteErr : Option JsError
  mapWriteErr : Option JsError
  purgeRes : Except JsError (List PurgeResult)
deriving DecidableEq, Repr

/-- Synchronous start of each per-result forEach callback in step 4 of
compileSassAndPurgeCss: every async callback runs up to its first await,
starting the vendor-prefixer, before the function returns. -/
def prefixStarts : List PurgeResult → List Event
  | [] => []
  | r :: rest => Event.prefixStart r.file :: prefixStarts rest

/-- Deferred continuations of the step-4 callbacks: after the prefixer
promise for a result settles, its callback resumes and overwrites the
original file with fs.writeFileSync. These continuations run only after
the returned promise has already resolved. -/
def perFileTail : List PurgeResult → List Event
  | [] => []
  | r :: rest => Event.prefixDone r.file :: Event.writeSync r.file :: perFileTail rest

/-- Trace of compileSassAndPurgeCss (src/index.js lines 48-109), as one
linearization of its single-threaded execution. Validation throws first
(rejecting the async function's promise). sass.renderSync either throws
(rejecting) or yields CSS and a map. The CSS write is started (line 74);
when sassSourceMap === true the map write is started too and both are
awaited via Promise.all before purging; the local write helper calls
reject and then falls through to resolve, so a failed write rejects the
pipeline (first settlement wins) after both writes finish. When
sassSourceMap is not strictly true, line 80 evaluates
new Promise().resolve(), which throws a TypeError because the Promise
constructor requires an executor function, so the async function rejects
before purging while the already-started CSS write still completes in
the background. After a successful purge, step 4 starts a prefix
operation per result via forEach with an async callback; forEach does
not await them, so the function returns (resolving its promise) and the
per-file overwrites happen afterwards. -/
def compileSassAndPurgeCss (cfg : SassConfig) (env : SassEnv) : List Event :=
  if strFalsy cfg.srcSassPath then
    [Event.settleReject (JsError.mk "No srcSassPath provided to compileSassAndPurgeCss")]
  else if strFalsy cfg.destCssPath then
    [Event.settleReject (JsError.mk "No destCssPath provided to compileSassAndPurgeCss")]
  else
    let src := cfg.srcSassPath.getD ""
    let dest := cfg.destCssPath.getD ""
    match env.renderSyncRes with
    | Except.error e => [Event.sassCompile src, Event.settleReject e]
    | Except.ok _ =>
      [Event.sassCompile src, Event.writeStart dest] ++
      if jsDefault (JSValue.bool true) cfg.sassSourceMap = JSValue.bool true then
        [Event.writeStart (dest ++ ".map"),
         Event.writeDone dest, Event.writeDone (dest ++ ".map")] ++
        match env.cssWriteErr with
        | some e => [Event.settleReject e]
        | none =>
          match env.mapWriteErr with
          | some e => [Event.settleReject e]
          | none =>
            [Event.purgeStart] ++
            match env.purgeRes with
            | Except.error e => [Event.settleReject e]
            | Except.ok results =>
              [Event.purgeDone] ++ prefixStarts results ++
              [Event.settleResolve] ++ perFileTail results
      else
        [Event.settleReject (JsError.mk "TypeError: Promise resolver undefined is not a function"),
         Event.writeDone dest]

/-- Configuration of babelAndMinify (src/index.js line 111): inputPath
and outputPath are required; minify defaults to true. -/
structure BabelConfig where
  inputPath : Option String
  outputPath : Option String
  minify : Option JSValue
deriving DecidableEq, Repr

/-- Collaborator behaviour for one babelAndMinify call. -/
structure BabelEnv where
  transformRes : Except JsError String
  writeErr : Option JsError
deriving DecidableEq, Repr

/-- Preset list built at src/index.js lines 116-119: the baseline preset
always, plus the minify preset exactly when minify === true. -/
def babelPresets (minify : JSValue) : List String :=
  ["@babel/env"] ++ if minify = JSValue.bool true then ["minify"] else []

/-- Behaviour of babelAndMinify (src/index.js lines 111-145). The
missing-field checks run before the Promise is constructed, so they
throw synchronously to the caller (Except.error). The returned promise
has no reject capability: the executor only receives resolve, the
transformFileAsync then-chain has no rejection handler, and a write
error is only logged; in both failure cases the trace has no settlement
event, leaving the promise pending forever. -/
def babelAndMinify (cfg : BabelConfig) (env : BabelEnv) : Except JsError (List Event) :=
  if strFalsy cfg.inputPath then
    Except.error (JsError.mk "No inputPath provided to babelAndMinify")
  else if strFalsy cfg.outputPath then
    Except.error (JsError.mk "No outputPath provided to babelAndMinify")
  else
    let presets := babelPresets (jsDefault (JSValue.bool true) cfg.minify)
    Except.ok
      ([Event.transformCall (cfg.inputPath.getD "") presets] ++
       match env.transformRes with
       | Except.error _ => []
       | Except.ok _ =>
         [Event.writeStart (cfg.outputPath.getD ""),
          Event.writeDone (cfg.outputPath.getD "")] ++
         match env.writeErr with
         | some _ => []
         | none => [Event.settleResolve])

/-- Configuration of uglify (src/index.js line 147). -/
structure UglifyConfig where
  inputPath : Option String
  outputPath : Option String
deriving DecidableEq, Repr

/-- Collaborator behaviour for one uglify call: the result of the
fs.readFile of the input, and whether the fs.writeFile of the minified
output fails. -/
structure UglifyEnv where
  readRes : Except JsError String
  writeErr : Option JsError
deriving DecidableEq, Repr

/-- Trace of uglify (src/index.js lines 147-159). The missing-field
checks call reject without returning, so execution continues into
fs.readFile either way; Node throws on an undefined path, ending the
executor (the promise is already settled then). The read callback also
rejects without returning on a read error, so UglifyJS.minify is still
invoked — with undefined data — and the write is still attempted; the
write callback likewise rejects and then falls through to resolve, with
only the first settlement kept. -/
def uglify (cfg : UglifyConfig) (env : UglifyEnv) : List Event :=
  (if strFalsy cfg.inputPath then
    [Event.settleReject (JsError.mk "No input path provided to uglify")]
   else []) ++
  (if strFalsy cfg.outputPath then
    [Event.settleReject (JsError.mk "No output path provided to uglify")]
   else []) ++
  [Event.readFile cfg.inputPath] ++
  if strFalsy cfg.inputPath then []
  else
    (match env.readRes with
     | Except.error e => [Event.settleReject e]
     | Except.ok _ => []) ++
    [Event.minifyCall (basename (cfg.inputPath.getD ""))
      (match env.readRes with
       | Except.error _ => none
       | Except.ok s => some s)] ++
    if strFalsy cfg.outputPath then []
    else
      [Event.writeStart (cfg.outputPath.getD ""),
       Event.writeDone (cfg.outputPath.getD "")] ++
      match env.writeErr with
      | some e => [Event.settleReject e, Event.settleResolve]
      | none => [Event.settleResolve]

/-- Configuration of beautifyHtml (src/index.js line 161). -/
structure BeautifyConfig where
  inputPath : Option String
  outputPath : Option String
deriving DecidableEq, Repr

/-- Collaborator behaviour for one beautifyHtml call. -/
structure BeautifyEnv where
  readRes : Except JsError String
  writeErr : Option JsError
deriving DecidableEq, Repr

/-- Trace of beautifyHtml (src/index.js lines 161-173), with the same
reject-without-return shape as uglify: a missing field rejects first but
fs.readFile is still reached; a read error rejects but the pretty
formatting and the write still run; the write callback rejects and then
falls through to resolve. -/
def beautifyHtml (cfg : BeautifyConfig) (env : BeautifyEnv) : List Event :=
  (if strFalsy cfg.inputPath then
    [Event.settleReject (JsError.mk "No input path provided to beautifyHtml")]
   else []) ++
  (if strFalsy cfg.outputPath then
    [Event.settleReject (JsError.mk "No output path provided to beautifyHtml")]
   else []) ++
  [Event.readFile cfg.inputPath] ++
  if strFalsy cfg.inputPath then []
  else
    (match env.readRes with
     | Except.error e => [Event.settleReject e]
     | Except.ok _ => []) ++
    if strFalsy cfg.outputPath then []
    else
      [Event.writeStart (cfg.outputPath.getD ""),
       Event.writeDone (cfg.outputPath.getD "")] ++
      match env.writeErr with
      | some e => [Event.settleReject e, Event.settleResolve]
      | none => [Event.settleResolve]

/-- Skipping a non-settlement head does not change the outcome. -/
theorem outcome_cons_not_settle (x : Event) (tl : List Event)
    (h : x.isSettle = false) : outcome (x :: tl) = outcome tl := by
  cases x <;> first | rfl | simp [Event.isSettle] at h

theorem outcome_cons_reject (e : JsError) (tl : List Event) :
    outcome (Event.settleReject e :: tl) = Outcome.rejected e := rfl

theorem outcome_cons_resolve (tl : List Event) :
    outcome (Event.settleResolve :: tl) = Outcome.resolved := rfl

theorem beforeFirstSettle_cons_not_settle (x : Event) (tl : List Event)
    (h : x.isSettle = false) :
    beforeFirstSettle (x :: tl) = x :: beforeFirstSettle tl := by
  cases x <;> first | rfl | simp [Event.isSettle] at h

theorem beforeFirstSettle_cons_reject (e : JsError) (tl : List Event) :
    beforeFirstSettle (Event.settleReject e :: tl) = [] := rfl

theorem beforeFirstSettle_cons_resolve (tl : List Event) :
    beforeFirstSettle (Event.settleResolve :: tl) = [] := rfl

theorem afterFirstSettle_cons_not_settle (x : Event) (tl : List Event)
    (h : x.isSettle = false) :
    afterFirstSettle (x :: tl) = afterFirstSettle tl := by
  cases x <;> first | rfl | simp [Event.isSettle] at h

theorem outcome_prefixStarts_append (rs : List PurgeResult) (tl : List Event) :
    outcome (prefixStarts rs ++ tl) = outcome tl := by
  induction rs with
  | nil => rfl
  | cons r rest ih =>
      rw [prefixStarts, List.cons_append,
        outcome_cons_not_settle (Event.prefixStart r.file) (prefixStarts rest ++ tl) rfl]
      exact ih

theorem beforeFirstSettle_prefixStarts_append (rs : List PurgeResult) (tl : List Event) :
    beforeFirstSettle (prefixStarts rs ++ tl) = prefixStarts rs ++ beforeFirstSettle tl := by
  induction rs with
  | nil => rfl
  | cons r rest ih =>
      rw [prefixStarts, List.cons_append,
        beforeFirstSettle_cons_not_settle (Event.prefixStart r.file) (prefixStarts rest ++ tl) rfl,
        ih, List.cons_append]

theorem prefixStarts_no_writeSync (rs : List PurgeResult) :
    (prefixStarts rs).all (fun ev => !ev.isWriteSync) = true := by
  induction rs with
  | nil => rfl
  | cons r rest ih =>
      rw [prefixStarts, List.all_cons, ih]
      rfl

theorem writeSync_mem_perFileTail (rs : List PurgeResult) (r : PurgeResult)
    (h : r ∈ rs) : Event.writeSync r.file ∈ perFileTail rs := by
  induction rs with
  | nil => simp at h
  | cons a rest ih =>
      rw [perFileTail]
      rcases List.mem_cons.mp h with heq | hmem
      · subst heq; simp
      · simp [ih hmem]

theorem outcome_addGlobals_append (gs : List (String × String)) (tl : List Event) :
    outcome (gs.map (fun g => Event.addGlobal g.1 g.2) ++ tl) = outcome tl := by
  induction gs with
  | nil => rfl
  | cons g rest ih =>
      rw [List.map_cons, List.cons_append,
        outcome_cons_not_settle (Event.addGlobal g.1 g.2)
          (rest.map (fun g => Event.addGlobal g.1 g.2) ++ tl) rfl]
      exact ih

theorem addGlobals_no_write (gs : List (String × String)) :
    (gs.map (fun g => Event.addGlobal g.1 g.2)).all (fun ev => !ev.isWrite) = true := by
  induction gs with
  | nil => rfl
  | cons g rest ih =>
      rw [List.map_cons, List.all_cons, ih]
      rfl

/-- Claim C6: when compileNunjucks is called with all required fields
present and the template engine reports a render error, the returned
promise rejects with exactly that render error and the trace contains no
write event at all, so the output file is untouched. -/
theorem nunjucks_render_error_rejects_no_write :
    ∀ (cfg : NunjucksConfig) (env : NunjucksEnv) (e : JsError),
    strFalsy cfg.inputPath = false →
    strFalsy cfg.outputPath = false →
    cfg.templates.isNone = false →
    env.renderRes = Except.error e →
    outcome (compileNunjucks cfg env) = Outcome.rejected e ∧
    (compileNunjucks cfg env).all (fun ev => !ev.isWrite) = true := by
  intro cfg env e h1 h2 h3 h4
  constructor
  · rw [compileNunjucks]
    simp only [h1, h2, h3, h4, Bool.false_eq_true, if_false]
    rw [List.append_assoc, outcome_addGlobals_append]
    rfl
  · rw [compileNunjucks]
    simp only [h1, h2, h3, h4, Bool.false_eq_true, if_false]
    rw [List.append_assoc, List.all_append, addGlobals_no_write]
    rfl

/-- Claim C6 witness: a concrete render failure. -/
theorem nunjucks_render_error_rejects_no_write_witness :
    outcome (compileNunjucks
      ⟨some "home.njk", some "home.html", some ["templates"], [("siteName", "Acme")]⟩
      ⟨Except.error (JsError.external 3), none⟩) = Outcome.rejected (JsError.external 3) ∧
    (compileNunjucks
      ⟨some "home.njk", some "home.html", some ["templates"], [("siteName", "Acme")]⟩
      ⟨Except.error (JsError.external 3), none⟩).all (fun ev => !ev.isWrite) = true :=
  nunjucks_render_error_rejects_no_write
    ⟨some "home.njk", some "home.html", some ["templates"], [("siteName", "Acme")]⟩
    ⟨Except.error (JsError.external 3), none⟩ (JsError.external 3)
    (by decide) (by decide) (by decide) rfl

/-- Claim C7: omitting the minify flag is the same call as passing
minify as true, because the destructuring default is true; in
particular the minify preset is included. -/
theorem babel_minify_default_included :
    ∀ (ip op : Option String) (env : BabelEnv),
    babelAndMinify ⟨ip, op, none⟩ env = babelAndMinify ⟨ip, op, some (JSValue.bool true)⟩ env ∧
    "minify" ∈ babelPresets (jsDefault (JSValue.bool true) none) := by
  intro ip op env
  exact ⟨rfl, by simp [babelPresets, jsDefault]⟩

/-- Claim C10: the minify preset is pushed exactly when the minify
variable is strictly the boolean true; every other value, including
truthy values such as the number 1 or the string yes, leaves only the
baseline preset. -/
theorem babel_minify_strict_true_only :
    ∀ (v : JSValue),
    ("minify" ∈ babelPresets v ↔ v = JSValue.bool true) ∧
    (v = JSValue.bool true ∨ babelPresets v = ["@babel/env"]) := by
  intro v
  by_cases h : v = JSValue.bool true
  · subst h
    simp [babelPresets]
  · simp [babelPresets, h]

/-- Claim C3 (code defect): on a transform error the returned promise of
babelAndMinify never settles, because the Promise executor exposes no
reject and the then-chain has no rejection handler; the transform error
is therefore not propagated to the caller as the spec requires. The
trace of a concrete failing call stops after the transform call with no
settlement event. -/
theorem babel_transform_error_never_settles :
    babelAndMinify ⟨some "src/app.js", some "dist/app.js", none⟩
        ⟨Except.error (JsError.external 0), none⟩ =
      Except.ok [Event.transformCall "src/app.js" ["@babel/env", "minify"]] ∧
    outcome [Event.transformCall "src/app.js" ["@babel/env", "minify"]] = Outcome.pending := by
  exact ⟨rfl, rfl⟩

/-- Claim C4 (code defect): disabling the Sass source map makes
compileSassAndPurgeCss evaluate new Promise().resolve(), which throws a
TypeError, so the promise rejects and the purge step is never reached;
the compiled CSS write is started and completes but the pipeline fails
instead of proceeding as the spec says. -/
theorem sass_sourcemap_false_type_error :
    compileSassAndPurgeCss
        ⟨some "styles/main.scss", some "dist/main.css", some (JSValue.bool false),
          some ["dist"], some ["dist/main.css"], none⟩
        ⟨Except.ok ⟨"compiled-css", "source-map"⟩, none, none, Except.ok []⟩ =
      [Event.sassCompile "styles/main.scss", Event.writeStart "dist/main.css",
       Event.settleReject (JsError.mk "TypeError: Promise resolver undefined is not a function"),
       Event.writeDone "dist/main.css"] ∧
    outcome (compileSassAndPurgeCss
        ⟨some "styles/main.scss", some "dist/main.css", some (JSValue.bool false),
          some ["dist"], some ["dist/main.css"], none⟩
        ⟨Except.ok ⟨"compiled-css", "source-map"⟩, none, none, Except.ok []⟩) =
      Outcome.rejected (JsError.mk "TypeError: Promise resolver undefined is not a function") := by
  exact ⟨by decide, by decide⟩

/-- Claim C1: for each of the five stages, a call with a required field
absent fails at once with the error naming that field, and no file read
or write happens before the failure. For compileNunjucks,
compileSassAndPurgeCss and babelAndMinify the whole behaviour is the
single failure (a trace consisting of one rejection, or a synchronous
throw); for uglify and beautifyHtml the promise is rejected with the
validation error and the trace before that first settlement contains no
file operation. -/
theorem required_field_validation :
    (∀ (cfg : NunjucksConfig) (env : NunjucksEnv), strFalsy cfg.inputPath = true →
      compileNunjucks cfg env =
        [Event.settleReject (JsError.mk "No inputPath provided to compileNunjucks")]) ∧
    (∀ (cfg : NunjucksConfig) (env : NunjucksEnv),
      strFalsy cfg.inputPath = false → strFalsy cfg.outputPath = true →
      compileNunjucks cfg env =
        [Event.settleReject (JsError.mk "No outputPath provided to compileNunjucks")]) ∧
    (∀ (cfg : NunjucksConfig) (env : NunjucksEnv),
      strFalsy cfg.inputPath = false → strFalsy cfg.outputPath = false →
      cfg.templates.isNone = true →
      compileNunjucks cfg env =
        [Event.settleReject (JsError.mk "No templates provided to compileNunjucks")]) ∧
    (∀ (cfg : SassConfig) (env : SassEnv), strFalsy cfg.srcSassPath = true →
      compileSassAndPurgeCss cfg env =
        [Event.settleReject (JsError.mk "No srcSassPath provided to compileSassAndPurgeCss")]) ∧
    (∀ (cfg : SassConfig) (env : SassEnv),
      strFalsy cfg.srcSassPath = false → strFalsy cfg.destCssPath = true →
      compileSassAndPurgeCss cfg env =
        [Event.settleReject (JsError.mk "No destCssPath provided to compileSassAndPurgeCss")]) ∧
    (∀ (cfg : BabelConfig) (env : BabelEnv), strFalsy cfg.inputPath = true →
      babelAndMinify cfg env =
        Except.error (JsError.mk "No inputPath provided to babelAndMinify")) ∧
    (∀ (cfg : BabelConfig) (env : BabelEnv),
      strFalsy cfg.inputPath = false → strFalsy cfg.outputPath = true →
      babelAndMinify cfg env =
        Except.error (JsError.mk "No outputPath provided to babelAndMinify")) ∧
    (∀ (cfg : UglifyConfig) (env : UglifyEnv), strFalsy cfg.inputPath = true →
      outcome (uglify cfg env) = Outcome.rejected (JsError.mk "No input path provided to uglify") ∧
      noFileOpBeforeSettle (uglify cfg env) = true) ∧
    (∀ (cfg : UglifyConfig) (env : UglifyEnv),
      strFalsy cfg.inputPath = false → strFalsy cfg.outputPath = true →
      outcome (uglify cfg env) = Outcome.rejected (JsError.mk "No output path provided to uglify") ∧
      noFileOpBeforeSettle (uglify cfg env) = true) ∧
    (∀ (cfg : BeautifyConfig) (env : BeautifyEnv), strFalsy cfg.inputPath = true →
      outcome (beautifyHtml cfg env) =
        Outcome.rejected (JsError.mk "No input path provided to beautifyHtml") ∧
      noFileOpBeforeSettle (beautifyHtml cfg env) = true) ∧
    (∀ (cfg : BeautifyConfig) (env : BeautifyEnv),
      strFalsy cfg.inputPath = false → strFalsy cfg.outputPath = true →
      outcome (beautifyHtml cfg env) =
        Outcome.rejected (JsError.mk "No output path provided to beautifyHtml") ∧
      noFileOpBeforeSettle (beautifyHtml cfg env) = true) := by
  refine ⟨?_, ?_, ?_, ?_, ?_, ?_, ?_, ?_, ?_, ?_, ?_⟩
  · intro cfg env h
    simp [compileNunjucks, h]
  · intro cfg env h1 h2
    simp [compileNunjucks, h1, h2]
  · intro cfg env h1 h2 h3
    simp [compileNunjucks, h1, h2, h3]
  · intro cfg env h
    simp [compileSassAndPurgeCss, h]
  · intro cfg env h1 h2
    simp [compileSassAndPurgeCss, h1, h2]
  · intro cfg env h
    simp [babelAndMinify, h]
  · intro cfg env h1 h2
    simp [babelAndMinify, h1, h2]
  · intro cfg env h
    refine ⟨?_, ?_⟩ <;>
      simp [uglify, h, outcome_cons_reject, noFileOpBeforeSettle, beforeFirstSettle_cons_reject]
  · intro cfg env h1 h2
    refine ⟨?_, ?_⟩ <;>
      simp [uglify, h1, h2, outcome_cons_reject, noFileOpBeforeSettle,
        beforeFirstSettle_cons_reject]
  · intro cfg env h
    refine ⟨?_, ?_⟩ <;>
      simp [beautifyHtml, h, outcome_cons_reject, noFileOpBeforeSettle,
        beforeFirstSettle_cons_reject]
  · intro cfg env h1 h2
    refine ⟨?_, ?_⟩ <;>
      simp [beautifyHtml, h1, h2, outcome_cons_reject, noFileOpBeforeSettle,
        beforeFirstSettle_cons_reject]

/-- Claim C1 witness: one concrete missing-field call per conjunct. -/
theorem required_field_validation_witness :
    compileNunjucks ⟨none, some "o.html", some ["t"], []⟩ ⟨Except.ok "x", none⟩ =
      [Event.settleReject (JsError.mk "No inputPath provided to compileNunjucks")] ∧
    compileNunjucks ⟨some "i.njk", none, some ["t"], []⟩ ⟨Except.ok "x", none⟩ =
      [Event.settleReject (JsError.mk "No outputPath provided to compileNunjucks")] ∧
    compileNunjucks ⟨some "i.njk", some "o.html", none, []⟩ ⟨Except.ok "x", none⟩ =
      [Event.settleReject (JsError.mk "No templates provided to compileNunjucks")] ∧
    compileSassAndPurgeCss ⟨none, some "a.css", none, none, none, none⟩
        ⟨Except.ok ⟨"c", "m"⟩, none, none, Except.ok []⟩ =
      [Event.settleReject (JsError.mk "No srcSassPath provided to compileSassAndPurgeCss")] ∧
    compileSassAndPurgeCss ⟨some "a.scss", none, none, none, none, none⟩
        ⟨Except.ok ⟨"c", "m"⟩, none, none, Except.ok []⟩ =
      [Event.settleReject (JsError.mk "No destCssPath provided to compileSassAndPurgeCss")] ∧
    babelAndMinify ⟨none, some "o.js", none⟩ ⟨Except.ok "c", none⟩ =
      Except.error (JsError.mk "No inputPath provided to babelAndMinify") ∧
    babelAndMinify ⟨some "i.js", none, none⟩ ⟨Except.ok "c", none⟩ =
      Except.error (JsError.mk "No outputPath provided to babelAndMinify") ∧
    (outcome (uglify ⟨none, some "o.js"⟩ ⟨Except.ok "s", none⟩) =
      Outcome.rejected (JsError.mk "No input path provided to uglify") ∧
     noFileOpBeforeSettle (uglify ⟨none, some "o.js"⟩ ⟨Except.ok "s", none⟩) = true) ∧
    (outcome (uglify ⟨some "i.js", none⟩ ⟨Except.ok "s", none⟩) =
      Outcome.rejected (JsError.mk "No output path provided to uglify") ∧
     noFileOpBeforeSettle (uglify ⟨some "i.js", none⟩ ⟨Except.ok "s", none⟩) = true) ∧
    (outcome (beautifyHtml ⟨none, some "o.html"⟩ ⟨Except.ok "s", none⟩) =
      Outcome.rejected (JsError.mk "No input path provided to beautifyHtml") ∧
     noFileOpBeforeSettle (beautifyHtml ⟨none, some "o.html"⟩ ⟨Except.ok "s", none⟩) = true) ∧
    (outcome (beautifyHtml ⟨some "i.html", none⟩ ⟨Except.ok "s", none⟩) =
      Outcome.rejected (JsError.mk "No output path provided to beautifyHtml") ∧
     noFileOpBeforeSettle (beautifyHtml ⟨some "i.html", none⟩ ⟨Except.ok "s", none⟩) = true) :=
  ⟨required_field_validation.1 ⟨none, some "o.html", some ["t"], []⟩ ⟨Except.ok "x", none⟩
      (by decide),
   required_field_validation.2.1 ⟨some "i.njk", none, some ["t"], []⟩ ⟨Except.ok "x", none⟩
      (by decide) (by decide),
   required_field_validation.2.2.1 ⟨some "i.njk", some "o.html", none, []⟩ ⟨Except.ok "x", none⟩
      (by decide) (by decide) (by decide),
   required_field_validation.2.2.2.1 ⟨none, some "a.css", none, none, none, none⟩
      ⟨Except.ok ⟨"c", "m"⟩, none, none, Except.ok []⟩ (by decide),
   required_field_validation.2.2.2.2.1 ⟨some "a.scss", none, none, none, none, none⟩
      ⟨Except.ok ⟨"c", "m"⟩, none, none, Except.ok []⟩ (by decide) (by decide),
   required_field_validation.2.2.2.2.2.1 ⟨none, some "o.js", none⟩ ⟨Except.ok "c", none⟩
      (by decide),
   required_field_validation.2.2.2.2.2.2.1 ⟨some "i.js", none, none⟩ ⟨Except.ok "c", none⟩
      (by decide) (by decide),
   required_field_validation.2.2.2.2.2.2.2.1 ⟨none, some "o.js"⟩ ⟨Except.ok "s", none⟩
      (by decide),
   required_field_validation.2.2.2.2.2.2.2.2.1 ⟨some "i.js", none⟩ ⟨Except.ok "s", none⟩
      (by decide) (by decide),
   required_field_validation.2.2.2.2.2.2.2.2.2.1 ⟨none, some "o.html"⟩ ⟨Except.ok "s", none⟩
      (by decide),
   required_field_validation.2.2.2.2.2.2.2.2.2.2 ⟨some "i.html", none⟩ ⟨Except.ok "s", none⟩
      (by decide) (by decide)⟩

/-- Claim C9: when the uglify input read fails, the promise rejects with
the read error, yet execution continues past the rejection: the minifier
is still invoked with undefined data and the write of the output path is
still started, both strictly after the first settlement of the promise. -/
theorem uglify_read_error_rejects_but_continues :
    ∀ (cfg : UglifyConfig) (env : UglifyEnv) (e : JsError) (ip op : String),
    cfg.inputPath = some ip →
    cfg.outputPath = some op →
    ip ≠ "" →
    op ≠ "" →
    env.readRes = Except.error e →
    outcome (uglify cfg env) = Outcome.rejected e ∧
    Event.minifyCall (basename ip) none ∈ afterFirstSettle (uglify cfg env) ∧
    Event.writeStart op ∈ afterFirstSettle (uglify cfg env) := by
  intro cfg env e ip op h1 h2 hip hop h5
  have tr : uglify cfg env =
      Event.readFile (some ip) :: Event.settleReject e ::
      Event.minifyCall (basename ip) none :: Event.writeStart op :: Event.writeDone op ::
      (match env.writeErr with
       | some e2 => [Event.settleReject e2, Event.settleResolve]
       | none => [Event.settleResolve]) := by
    simp [uglify, h1, h2, h5, strFalsy, hip, hop]
  rw [tr, outcome_cons_not_settle (Event.readFile (some ip)) _ rfl, outcome_cons_reject,
    afterFirstSettle_cons_not_settle (Event.readFile (some ip)) _ rfl]
  refine ⟨rfl, ?_, ?_⟩ <;> simp [afterFirstSettle, List.dropWhile, Event.isSettle]

/-- Claim C9 witness: a concrete failing read. -/
theorem uglify_read_error_rejects_but_continues_witness :
    outcome (uglify ⟨some "js/app.js", some "dist/app.js"⟩
      ⟨Except.error (JsError.external 7), none⟩) = Outcome.rejected (JsError.external 7) ∧
    Event.minifyCall (basename "js/app.js") none ∈
      afterFirstSettle (uglify ⟨some "js/app.js", some "dist/app.js"⟩
        ⟨Except.error (JsError.external 7), none⟩) ∧
    Event.writeStart "dist/app.js" ∈
      afterFirstSettle (uglify ⟨some "js/app.js", some "dist/app.js"⟩
        ⟨Except.error (JsError.external 7), none⟩) :=
  uglify_read_error_rejects_but_continues ⟨some "js/app.js", some "dist/app.js"⟩
    ⟨Except.error (JsError.external 7), none⟩ (JsError.external 7) "js/app.js" "dist/app.js"
    rfl rfl (by decide) (by decide) rfl

/-- Claim C2: when compileSassAndPurgeCss reaches step 4, its promise
resolves while none of the per-purge-result overwrites have happened:
the trace before the first settlement contains no synchronous overwrite,
the outcome is resolved, and every per-result overwrite occurs in the
trace only after that. -/
theorem sass_resolves_before_overwrites :
    ∀ (cfg : SassConfig) (env : SassEnv) (out : SassOut) (rs : List PurgeResult) (s d : String),
    cfg.srcSassPath = some s →
    cfg.destCssPath = some d →
    s ≠ "" →
    d ≠ "" →
    jsDefault (JSValue.bool true) cfg.sassSourceMap = JSValue.bool true →
    env.renderSyncRes = Except.ok out →
    env.cssWriteErr = none →
    env.mapWriteErr = none →
    env.purgeRes = Except.ok rs →
    outcome (compileSassAndPurgeCss cfg env) = Outcome.resolved ∧
    (beforeFirstSettle (compileSassAndPurgeCss cfg env)).all (fun ev => !ev.isWriteSync) = true ∧
    ∀ r ∈ rs, Event.writeSync r.file ∈ compileSassAndPurgeCss cfg env := by
  intro cfg env out rs s d hs hd hsne hdne hsm hr hcw hmw hp
  have tr : compileSassAndPurgeCss cfg env =
      Event.sassCompile s :: Event.writeStart d ::
      Event.writeStart (d ++ ".map") :: Event.writeDone d :: Event.writeDone (d ++ ".map") ::
      Event.purgeStart :: Event.purgeDone ::
      (prefixStarts rs ++ Event.settleResolve :: perFileTail rs) := by
    simp [compileSassAndPurgeCss, hs, hd, hsne, hdne, hsm, hr, hcw, hmw, hp, strFalsy]
  refine ⟨?_, ?_, ?_⟩
  · rw [tr, outcome_cons_not_settle (Event.sassCompile s) _ rfl,
      outcome_cons_not_settle (Event.writeStart d) _ rfl,
      outcome_cons_not_settle (Event.writeStart (d ++ ".map")) _ rfl,
      outcome_cons_not_settle (Event.writeDone d) _ rfl,
      outcome_cons_not_settle (Event.writeDone (d ++ ".map")) _ rfl,
      outcome_cons_not_settle Event.purgeStart _ rfl,
      outcome_cons_not_settle Event.purgeDone _ rfl,
      outcome_prefixStarts_append, outcome_cons_resolve]
  · rw [tr, beforeFirstSettle_cons_not_settle (Event.sassCompile s) _ rfl,
      beforeFirstSettle_cons_not_settle (Event.writeStart d) _ rfl,
      beforeFirstSettle_cons_not_settle (Event.writeStart (d ++ ".map")) _ rfl,
      beforeFirstSettle_cons_not_settle (Event.writeDone d) _ rfl,
      beforeFirstSettle_cons_not_settle (Event.writeDone (d ++ ".map")) _ rfl,
      beforeFirstSettle_cons_not_settle Event.purgeStart _ rfl,
      beforeFirstSettle_cons_not_settle Event.purgeDone _ rfl,
      beforeFirstSettle_prefixStarts_append, beforeFirstSettle_cons_resolve, List.append_nil]
    simp only [List.all_cons, Event.isWriteSync, Bool.not_false, Bool.true_and]
    exact prefixStarts_no_writeSync rs
  · intro r hmem
    rw [tr]
    simp [List.mem_cons, List.mem_append, writeSync_mem_perFileTail rs r hmem]

/-- Claim C2 witness: a concrete successful pipeline run with one purge
result. -/
theorem sass_resolves_before_overwrites_witness :
    outcome (compileSassAndPurgeCss
      ⟨some "m.scss", some "m.css", none, some ["dist"], some ["m.css"], none⟩
      ⟨Except.ok ⟨"c", "sm"⟩, none, none, Except.ok [⟨"m.css", "pc"⟩]⟩) = Outcome.resolved ∧
    (beforeFirstSettle (compileSassAndPurgeCss
      ⟨some "m.scss", some "m.css", none, some ["dist"], some ["m.css"], none⟩
      ⟨Except.ok ⟨"c", "sm"⟩, none, none, Except.ok [⟨"m.css", "pc"⟩]⟩)).all
        (fun ev => !ev.isWriteSync) = true ∧
    Event.writeSync "m.css" ∈ compileSassAndPurgeCss
      ⟨some "m.scss", some "m.css", none, some ["dist"], some ["m.css"], none⟩
      ⟨Except.ok ⟨"c", "sm"⟩, none, none, Except.ok [⟨"m.css", "pc"⟩]⟩ :=
  ⟨(sass_resolves_before_overwrites
      ⟨some "m.scss", some "m.css", none, some ["dist"], some ["m.css"], none⟩
      ⟨Except.ok ⟨"c", "sm"⟩, none, none, Except.ok [⟨"m.css", "pc"⟩]⟩
      ⟨"c", "sm"⟩ [⟨"m.css", "pc"⟩] "m.scss" "m.css"
      rfl rfl (by decide) (by decide) rfl rfl rfl rfl rfl).1,
   (sass_resolves_before_overwrites
      ⟨some "m.scss", some "m.css", none, some ["dist"], some ["m.css"], none⟩
      ⟨Except.ok ⟨"c", "sm"⟩, none, none, Except.ok [⟨"m.css", "pc"⟩]⟩
      ⟨"c", "sm"⟩ [⟨"m.css", "pc"⟩] "m.scss" "m.css"
      rfl rfl (by decide) (by decide) rfl rfl rfl rfl rfl).2.1,
   (sass_resolves_before_overwrites
      ⟨some "m.scss", some "m.css", none, some ["dist"], some ["m.css"], none⟩
      ⟨Except.ok ⟨"c", "sm"⟩, none, none, Except.ok [⟨"m.css", "pc"⟩]⟩
      ⟨"c", "sm"⟩ [⟨"m.css", "pc"⟩] "m.scss" "m.css"
      rfl rfl (by decide) (by decide) rfl rfl rfl rfl rfl).2.2
      ⟨"m.css", "pc"⟩ (by decide)⟩

/-- Claim C5: whenever compileSassAndPurgeCss starts the unused-rule
purge, the completion of the compiled CSS write and the completion of
the source-map write both appear in the trace strictly before the purge
start: steps 1 to 3 of the pipeline are strictly ordered. Purging is
reached only on the source-map path, so both write completions are
always present. -/
theorem sass_writes_done_before_purge :
    ∀ (cfg : SassConfig) (env : SassEnv) (d : String),
    cfg.destCssPath = some d →
    Event.purgeStart ∈ compileSassAndPurgeCss cfg env →
    Event.writeDone d ∈ beforePurge (compileSassAndPurgeCss cfg env) ∧
    Event.writeDone (d ++ ".map") ∈ beforePurge (compileSassAndPurgeCss cfg env) := by
  intro cfg env d hd hmem
  by_cases hs : strFalsy cfg.srcSassPath = true
  · simp [compileSassAndPurgeCss, hs] at hmem
  · by_cases hdf : strFalsy cfg.destCssPath = true
    · simp [compileSassAndPurgeCss, hs, hdf] at hmem
    · replace hdf : ¬strFalsy (some d) = true := by rwa [hd] at hdf
      cases hr : env.renderSyncRes with
      | error e => simp [compileSassAndPurgeCss, hs, hdf, hr, hd] at hmem
      | ok o =>
        by_cases hsm : jsDefault (JSValue.bool true) cfg.sassSourceMap = JSValue.bool true
        · cases hcw : env.cssWriteErr with
          | some e => simp [compileSassAndPurgeCss, hs, hdf, hr, hsm, hcw, hd] at hmem
          | none =>
            cases hmw : env.mapWriteErr with
            | some e => simp [compileSassAndPurgeCss, hs, hdf, hr, hsm, hcw, hmw, hd] at hmem
            | none =>
              cases hp : env.purgeRes with
              | error e =>
                constructor <;>
                  simp [compileSassAndPurgeCss, hs, hdf, hr, hsm, hcw, hmw, hp, hd,
                    beforePurge, Event.isPurgeStart, List.takeWhile_cons]
              | ok rs =>
                constructor <;>
                  simp [compileSassAndPurgeCss, hs, hdf, hr, hsm, hcw, hmw, hp, hd,
                    beforePurge, Event.isPurgeStart, List.takeWhile_cons]
        · simp [compileSassAndPurgeCss, hs, hdf, hr, hsm, hd] at hmem

/-- Claim C5 witness: a concrete run that reaches the purge step. -/
theorem sass_writes_done_before_purge_witness :
    Event.writeDone "m.css" ∈ beforePurge (compileSassAndPurgeCss
      ⟨some "m.scss", some "m.css", none, none, none, none⟩
      ⟨Except.ok ⟨"c", "sm"⟩, none, none, Except.ok [⟨"m.css", "pc"⟩]⟩) ∧
    Event.writeDone ("m.css" ++ ".map") ∈ beforePurge (compileSassAndPurgeCss
      ⟨some "m.scss", some "m.css", none, none, none, none⟩
      ⟨Except.ok ⟨"c", "sm"⟩, none, none, Except.ok [⟨"m.css", "pc"⟩]⟩) :=
  sass_writes_done_before_purge
    ⟨some "m.scss", some "m.css", none, none, none, none⟩
    ⟨Except.ok ⟨"c", "sm"⟩, none, none, Except.ok [⟨"m.css", "pc"⟩]⟩
    "m.css" rfl (by decide)
